import Mathlib

/-!
Verification of the SmartPtrKit shared-ownership core
(src/include/shared_ptr.hpp, src/include/weak_ptr.hpp) against its
specification.

The embedding models a single control block together with the shared and
weak handles that reference it.  The two reference counts are C++
`std::atomic<long>` values; they are modelled as `Int` (the claims never
drive them anywhere near the 64-bit wrap-around).  The polymorphic
`dispose`/`destroy` calls are modelled by counters recording how many
times each has been invoked on the block.
-/

namespace SmartPtrKit

/-- Class `detail::control_block` (shared_ptr.hpp lines 12-52): strong and weak
counts plus instrumentation counters for the virtual `dispose`/`destroy`
calls. -/
structure ControlBlock where
  m_use_count : Int
  m_weak_count : Int
  disposeCount : Nat
  destroyCount : Nat
deriving Repr, DecidableEq

/-- Constructor `control_block::control_block()` : `m_use_count(1), m_weak_count(0)`. -/
def ControlBlock.init : ControlBlock :=
  { m_use_count := 1, m_weak_count := 0, disposeCount := 0, destroyCount := 0 }

/-- Member `add_reference()` : `++m_use_count`. -/
def ControlBlock.add_reference (cb : ControlBlock) : ControlBlock :=
  { cb with m_use_count := cb.m_use_count + 1 }

/-- Member `add_weak_reference()` : `++m_weak_count`. -/
def ControlBlock.add_weak_reference (cb : ControlBlock) : ControlBlock :=
  { cb with m_weak_count := cb.m_weak_count + 1 }

/-- The virtual `dispose()` call (payload released); recorded by counter. -/
def ControlBlock.dispose (cb : ControlBlock) : ControlBlock :=
  { cb with disposeCount := cb.disposeCount + 1 }

/-- The virtual `destroy()` call (block storage reclaimed); recorded by
counter. -/
def ControlBlock.destroy (cb : ControlBlock) : ControlBlock :=
  { cb with destroyCount := cb.destroyCount + 1 }

/-- Member `release()` (shared_ptr.hpp lines 24-33):
`if (--m_use_count == 0) { dispose(); if (m_weak_count == 0) { destroy(); return true; } } return false;` -/
def ControlBlock.release (cb : ControlBlock) : ControlBlock × Bool :=
  let cb1 := { cb with m_use_count := cb.m_use_count - 1 }
  if cb1.m_use_count = 0 then
    let cb2 := cb1.dispose
    if cb2.m_weak_count = 0 then (cb2.destroy, true)
    else (cb2, false)
  else (cb1, false)

/-- Member `weak_release()` (shared_ptr.hpp lines 35-39):
`if (--m_weak_count == 0 && m_use_count == 0) destroy();` -/
def ControlBlock.weak_release (cb : ControlBlock) : ControlBlock :=
  let cb1 := { cb with m_weak_count := cb.m_weak_count - 1 }
  if cb1.m_weak_count = 0 ∧ cb1.m_use_count = 0 then cb1.destroy
  else cb1

/-- Member `use_count()` : returns `m_use_count`. -/
def ControlBlock.use_count (cb : ControlBlock) : Int :=
  cb.m_use_count

/-- C1: `release` decrements the strong count; dispose is invoked exactly
once iff the decremented count is 0; destroy is invoked, and `true`
returned, exactly when additionally the weak count is 0; otherwise the
result is `false`. -/
theorem release_strong_spec (cb : ControlBlock) :
    (cb.release).1.m_use_count = cb.m_use_count - 1
    ∧ (cb.release).1.disposeCount
        = cb.disposeCount + (if cb.m_use_count - 1 = 0 then 1 else 0)
    ∧ ((cb.release).2 = true ↔ (cb.m_use_count - 1 = 0 ∧ cb.m_weak_count = 0))
    ∧ (cb.release).1.destroyCount
        = cb.destroyCount
          + (if cb.m_use_count - 1 = 0 ∧ cb.m_weak_count = 0 then 1 else 0) := by
  unfold ControlBlock.release
  dsimp only
  split_ifs with h1 h2 h3 <;>
    simp_all [ControlBlock.dispose, ControlBlock.destroy]

/-! Section: the reference-counting protocol as a transition system (C2). -/

/-- The four count-mutating operations of `control_block`. -/
inductive Op
  | add_reference
  | add_weak_reference
  | release
  | weak_release
deriving Repr, DecidableEq

/-- One protocol step: the state change each operation performs on the
block. -/
def step (cb : ControlBlock) : Op → ControlBlock
  | .add_reference => cb.add_reference
  | .add_weak_reference => cb.add_weak_reference
  | .release => (cb.release).1
  | .weak_release => cb.weak_release

/-- The handle protocol: `add_reference`/`release` are performed by a live
shared handle (so the strong count the caller contributes to is ≥ 1);
`add_weak_reference` is performed while holding a shared or a weak handle;
`weak_release` by a live weak handle. -/
def pre (cb : ControlBlock) : Op → Prop
  | .add_reference => 1 ≤ cb.m_use_count
  | .add_weak_reference => 1 ≤ cb.m_use_count ∨ 1 ≤ cb.m_weak_count
  | .release => 1 ≤ cb.m_use_count
  | .weak_release => 1 ≤ cb.m_weak_count

instance (cb : ControlBlock) (op : Op) : Decidable (pre cb op) :=
  match op with
  | .add_reference => inferInstanceAs (Decidable (1 ≤ cb.m_use_count))
  | .add_weak_reference =>
      inferInstanceAs (Decidable (1 ≤ cb.m_use_count ∨ 1 ≤ cb.m_weak_count))
  | .release => inferInstanceAs (Decidable (1 ≤ cb.m_use_count))
  | .weak_release => inferInstanceAs (Decidable (1 ≤ cb.m_weak_count))

/-- A sequence of operations each of whose steps respects the handle
protocol. -/
inductive ValidSeq : ControlBlock → List Op → Prop
  | nil (cb : ControlBlock) : ValidSeq cb []
  | cons (cb : ControlBlock) (op : Op) (ops : List Op) :
      pre cb op → ValidSeq (step cb op) ops → ValidSeq cb (op :: ops)

/-- Running a sequence of operations on a block. -/
def run (cb : ControlBlock) (ops : List Op) : ControlBlock :=
  ops.foldl step cb

/-- The inductive invariant of a reachable control block: counts are
non-negative, `dispose` has run exactly once iff the strong count has
reached 0, and `destroy` has run exactly once iff both counts have
reached 0. -/
def Inv (cb : ControlBlock) : Prop :=
  0 ≤ cb.m_use_count ∧ 0 ≤ cb.m_weak_count
  ∧ cb.disposeCount = (if cb.m_use_count = 0 then 1 else 0)
  ∧ cb.destroyCount
      = (if cb.m_use_count = 0 ∧ cb.m_weak_count = 0 then 1 else 0)

/-- The three lifecycle states of the spec's state machine. -/
inductive LifeState
  | live
  | disposedLiveWeak
  | reclaimed
deriving Repr, DecidableEq

/-- Classification of a block state. -/
def stateOf (cb : ControlBlock) : LifeState :=
  if 1 ≤ cb.m_use_count then .live
  else if 1 ≤ cb.m_weak_count then .disposedLiveWeak
  else .reclaimed

theorem inv_init : Inv ControlBlock.init := by
  simp [Inv, ControlBlock.init]

theorem inv_step (cb : ControlBlock) (op : Op) (hpre : pre cb op)
    (hinv : Inv cb) : Inv (step cb op) := by
  obtain ⟨h1, h2, h3, h4⟩ := hinv
  cases op <;>
    simp only [step, pre, ControlBlock.add_reference,
      ControlBlock.add_weak_reference, ControlBlock.release,
      ControlBlock.weak_release, ControlBlock.dispose, ControlBlock.destroy,
      Inv] at * <;>
    split_ifs at * <;> simp_all <;> omega

theorem inv_run (cb : ControlBlock) (ops : List Op) (hv : ValidSeq cb ops)
    (hinv : Inv cb) : Inv (run cb ops) := by
  induction hv with
  | nil cb => exact hinv
  | cons cb op ops hpre _hv ih =>
      exact ih (inv_step cb op hpre hinv)

/-- The lifecycle guarantees at a reachable block state: `dispose` and
`destroy` each ran at most once, `destroy` ran exactly once iff both counts
have reached zero (and then `dispose` had already run), the `Reclaimed`
classification coincides with `destroy` having run, and from `Reclaimed` no
protocol operation is enabled. -/
def LifecycleOk (cb : ControlBlock) : Prop :=
  cb.disposeCount ≤ 1
  ∧ cb.destroyCount ≤ 1
  ∧ (cb.destroyCount = 1 ↔ (cb.m_use_count = 0 ∧ cb.m_weak_count = 0))
  ∧ (cb.destroyCount = 1 → cb.disposeCount = 1)
  ∧ (stateOf cb = .reclaimed ↔ cb.destroyCount = 1)
  ∧ (stateOf cb = .reclaimed → ∀ op, ¬ pre cb op)

/-- The spec's §4.4 transition table for one protocol step from a state
satisfying the invariant. -/
def StepTable (cb : ControlBlock) (op : Op) : Prop :=
  (stateOf cb = .live →
      (stateOf (step cb op) = .live
         ∧ (step cb op).disposeCount = cb.disposeCount
         ∧ (step cb op).destroyCount = cb.destroyCount)
      ∨ (stateOf (step cb op) = .disposedLiveWeak
         ∧ (step cb op).disposeCount = cb.disposeCount + 1
         ∧ (step cb op).destroyCount = cb.destroyCount)
      ∨ (stateOf (step cb op) = .reclaimed
         ∧ (step cb op).disposeCount = cb.disposeCount + 1
         ∧ (step cb op).destroyCount = cb.destroyCount + 1))
  ∧ (stateOf cb = .disposedLiveWeak →
      (stateOf (step cb op) = .disposedLiveWeak
         ∧ (step cb op).disposeCount = cb.disposeCount
         ∧ (step cb op).destroyCount = cb.destroyCount)
      ∨ (stateOf (step cb op) = .reclaimed
         ∧ (step cb op).disposeCount = cb.disposeCount
         ∧ (step cb op).destroyCount = cb.destroyCount + 1))
  ∧ (stateOf cb = .reclaimed → False)

theorem stateOf_eq_live (cb : ControlBlock) :
    stateOf cb = LifeState.live ↔ 1 ≤ cb.m_use_count := by
  unfold stateOf
  split_ifs <;> simp_all

theorem stateOf_eq_dlw (cb : ControlBlock) :
    stateOf cb = LifeState.disposedLiveWeak
      ↔ (¬ 1 ≤ cb.m_use_count ∧ 1 ≤ cb.m_weak_count) := by
  unfold stateOf
  split_ifs <;> simp_all

theorem stateOf_eq_reclaimed (cb : ControlBlock) :
    stateOf cb = LifeState.reclaimed
      ↔ (¬ 1 ≤ cb.m_use_count ∧ ¬ 1 ≤ cb.m_weak_count) := by
  unfold stateOf
  split_ifs <;> simp_all

theorem lifecycle_of_inv (cb : ControlBlock) (hinv : Inv cb) :
    LifecycleOk cb := by
  obtain ⟨h1, h2, h3, h4⟩ := hinv
  refine ⟨?_, ?_, ?_, ?_, ?_, ?_⟩
  · split_ifs at h3 <;> omega
  · split_ifs at h4 <;> omega
  · split_ifs at h4 <;> omega
  · split_ifs at h3 h4 <;> omega
  · rw [stateOf_eq_reclaimed]
    split_ifs at h4 <;> omega
  · rw [stateOf_eq_reclaimed]
    intro h op
    cases op <;> simp only [pre] <;> omega

theorem step_table_of_inv (cb : ControlBlock) (op : Op)
    (hpre : pre cb op) (hinv : Inv cb) : StepTable cb op := by
  obtain ⟨h1, h2, h3, h4⟩ := hinv
  cases op <;>
    simp only [StepTable, stateOf_eq_live, stateOf_eq_dlw,
      stateOf_eq_reclaimed, step, pre, ControlBlock.add_reference,
      ControlBlock.add_weak_reference, ControlBlock.release,
      ControlBlock.weak_release, ControlBlock.dispose,
      ControlBlock.destroy] at * <;>
    split_ifs at * <;> simp_all <;> omega

/-- C2: along every operation sequence respecting the handle protocol from
a fresh block, `destroy` runs exactly once, only once both counts have
reached zero (in either order), `dispose` (which ran at the strong count's
zero crossing) is never invoked after `destroy`, and each protocol step
follows the three-state machine Live → Disposed-Live-Weak → Reclaimed, no
step being enabled from `Reclaimed`. -/
theorem control_block_lifecycle (ops : List Op)
    (hv : ValidSeq ControlBlock.init ops) :
    LifecycleOk (run ControlBlock.init ops)
    ∧ (∀ cb op, Inv cb → pre cb op → StepTable cb op) :=
  ⟨lifecycle_of_inv _ (inv_run _ _ hv inv_init),
   fun cb op hi hp => step_table_of_inv cb op hp hi⟩

/-- Witness for C2 at the concrete protocol run: attach a weak handle,
drop the strong handle (dispose; block retained), drop the weak handle
(destroy). -/
theorem control_block_lifecycle_witness :
    LifecycleOk (run ControlBlock.init
      [Op.add_weak_reference, Op.release, Op.weak_release])
    ∧ (∀ cb op, Inv cb → pre cb op → StepTable cb op) :=
  control_block_lifecycle
    [Op.add_weak_reference, Op.release, Op.weak_release]
    (ValidSeq.cons _ _ _ (by decide)
      (ValidSeq.cons _ _ _ (by decide)
        (ValidSeq.cons _ _ _ (by decide) (ValidSeq.nil _))))

/-! Section: shared and weak handles.

A handle is a pair `(m_ptr, m_ctrl)`.  The payload pointer is `Option Nat`
(`none` is `nullptr`); since every claim concerns handles over one control
block, `m_ctrl` is a `Bool`: `true` when the member points at the modelled
block, `false` when it is `nullptr`.  The block itself is threaded
explicitly through each operation. -/

/-- Members of `shared_ptr<T>`: `m_ptr`, `m_ctrl` (shared_ptr.hpp lines
228-229). -/
structure SharedHandle where
  m_ptr : Option Nat
  m_ctrl : Bool
deriving Repr, DecidableEq

/-- Members of `weak_ptr<T>`: `m_ptr`, `m_ctrl` (weak_ptr.hpp lines 81-82). -/
structure WeakHandle where
  m_ptr : Option Nat
  m_ctrl : Bool
deriving Repr, DecidableEq

/-- Constructors `shared_ptr()` and `shared_ptr(std::nullptr_t)` (lines 135-136). -/
def SharedHandle.empty : SharedHandle :=
  { m_ptr := none, m_ctrl := false }

/-- Member `shared_ptr::use_count()` (lines 213-215): delegates to the block, or
0 when `m_ctrl` is null. -/
def SharedHandle.use_count (s : SharedHandle) (cb : ControlBlock) : Int :=
  if s.m_ctrl then cb.use_count else 0

/-- Constructors `shared_ptr(const shared_ptr&)` and the covariant form (lines
149-158): copy the pair and `add_reference` when `m_ctrl` is non-null. -/
def SharedHandle.copy (s : SharedHandle) (cb : ControlBlock) :
    SharedHandle × ControlBlock :=
  (⟨s.m_ptr, s.m_ctrl⟩, if s.m_ctrl then cb.add_reference else cb)

/-- Constructors `shared_ptr(shared_ptr&&)` and the covariant form (lines 160-171):
transfer the pair, null out the source, no count change.  Returns
(constructed handle, source after the move). -/
def SharedHandle.move (s : SharedHandle) : SharedHandle × SharedHandle :=
  (⟨s.m_ptr, s.m_ctrl⟩, SharedHandle.empty)

/-- Destructor `~shared_ptr()` (lines 173-175): `release` when `m_ctrl` is non-null. -/
def SharedHandle.drop (s : SharedHandle) (cb : ControlBlock) : ControlBlock :=
  if s.m_ctrl then (cb.release).1 else cb

/-- Member `weak_ptr::use_count()` (weak_ptr.hpp lines 65-67). -/
def WeakHandle.use_count (w : WeakHandle) (cb : ControlBlock) : Int :=
  if w.m_ctrl then cb.use_count else 0

/-- Member `weak_ptr::expired()` (weak_ptr.hpp lines 69-71): `use_count() == 0`. -/
def WeakHandle.expired (w : WeakHandle) (cb : ControlBlock) : Bool :=
  w.use_count cb = 0

/-- The private constructor `shared_ptr(Y* ptr, control_block* ctrl)`
(shared_ptr.hpp lines 222-226): store the pair and perform an
unconditional `add_reference` whenever `ctrl` is non-null. -/
def SharedHandle.fromPtrCtrl (p : Option Nat) (ctrl : Bool)
    (cb : ControlBlock) : SharedHandle × ControlBlock :=
  (⟨p, ctrl⟩, if ctrl then cb.add_reference else cb)

/-- Member `weak_ptr::lock()` (weak_ptr.hpp lines 73-78): empty handle when
`expired()`, otherwise the private constructor on the stored pair. -/
def WeakHandle.lock (w : WeakHandle) (cb : ControlBlock) :
    SharedHandle × ControlBlock :=
  if w.expired cb then (SharedHandle.empty, cb)
  else SharedHandle.fromPtrCtrl w.m_ptr w.m_ctrl cb

/-- C3: `lock()` on an expired weak handle returns the empty shared handle
and leaves the block untouched; on a non-expired one it returns a handle
sharing the weak handle's payload pointer and control block, with the
strong count exactly one greater than before. -/
theorem weak_ptr_lock_spec (w : WeakHandle) (cb : ControlBlock) :
    (w.expired cb = true → w.lock cb = (SharedHandle.empty, cb))
    ∧ (w.expired cb = false →
        (w.lock cb).1.m_ptr = w.m_ptr
        ∧ (w.lock cb).1.m_ctrl = w.m_ctrl
        ∧ w.m_ctrl = true
        ∧ ((w.lock cb).2).m_use_count = cb.m_use_count + 1
        ∧ ((w.lock cb).2).m_weak_count = cb.m_weak_count
        ∧ ((w.lock cb).2).disposeCount = cb.disposeCount
        ∧ ((w.lock cb).2).destroyCount = cb.destroyCount) := by
  constructor
  · intro h
    simp [WeakHandle.lock, h]
  · intro h
    have hctrl : w.m_ctrl = true := by
      by_contra hc
      simp only [Bool.not_eq_true] at hc
      simp [WeakHandle.expired, WeakHandle.use_count, hc] at h
    simp [WeakHandle.lock, h, SharedHandle.fromPtrCtrl, hctrl,
      ControlBlock.add_reference]

/-- Witness for C3: the expired branch on an empty weak handle, and the
upgrade branch on a weak handle over a block with strong count 1. -/
theorem weak_ptr_lock_spec_witness :
    (WeakHandle.lock ⟨none, false⟩ ControlBlock.init
        = (SharedHandle.empty, ControlBlock.init))
    ∧ ((WeakHandle.lock ⟨some 7, true⟩
          { m_use_count := 1, m_weak_count := 1, disposeCount := 0,
            destroyCount := 0 }).2.m_use_count = 2) :=
  ⟨(weak_ptr_lock_spec ⟨none, false⟩ ControlBlock.init).1 (by decide),
   ((weak_ptr_lock_spec ⟨some 7, true⟩
      { m_use_count := 1, m_weak_count := 1, disposeCount := 0,
        destroyCount := 0 }).2 (by decide)).2.2.2.1⟩

/-- C4: the code's upgrade is the non-atomic pair "read `expired()`, then
unconditionally `add_reference` in the private constructor", so a final
`release` interleaved between the two resurrects the block: starting from
strong count 1 and weak count 1, the `expired()` check passes, the
interleaved `release` drives the strong count to 0 and runs `dispose`,
and the subsequent unconditional increment leaves a disposed block with
strong count 1 and hands back a handle to the disposed payload. -/
theorem lock_check_then_increment_race :
    WeakHandle.expired ⟨some 0, true⟩
      { m_use_count := 1, m_weak_count := 1, disposeCount := 0,
        destroyCount := 0 } = false
    ∧ (ControlBlock.release
        { m_use_count := 1, m_weak_count := 1, disposeCount := 0,
          destroyCount := 0 }).1
      = { m_use_count := 0, m_weak_count := 1, disposeCount := 1,
          destroyCount := 0 }
    ∧ SharedHandle.fromPtrCtrl (some 0) true
        { m_use_count := 0, m_weak_count := 1, disposeCount := 1,
          destroyCount := 0 }
      = (⟨some 0, true⟩,
         { m_use_count := 1, m_weak_count := 1, disposeCount := 1,
           destroyCount := 0 }) := by
  refine ⟨by decide, ?_, ?_⟩ <;>
    simp [ControlBlock.release, ControlBlock.dispose,
      SharedHandle.fromPtrCtrl, ControlBlock.add_reference]

/-! Section: weak-handle construction (C5).

In the source every `weak_ptr` constructor body increments through
`m_ctrl->add_weak_ref()` (weak_ptr.hpp lines 15, 21, 27), but
`control_block` declares no member of that name — its weak increment is
`add_weak_reference()` (shared_ptr.hpp lines 20-22) — so those bodies do
not compile.  The definitions below model the call as resolving to
`add_weak_reference`, the clearly intended target. -/

/-- Constructor `weak_ptr(const shared_ptr<Y>&)` (weak_ptr.hpp lines 24-28): copy the
pair, increment the weak count when the control pointer is non-null. -/
def WeakHandle.fromShared (s : SharedHandle) (cb : ControlBlock) :
    WeakHandle × ControlBlock :=
  (⟨s.m_ptr, s.m_ctrl⟩, if s.m_ctrl then cb.add_weak_reference else cb)

/-- Constructor `weak_ptr(const weak_ptr&)` (weak_ptr.hpp lines 13-16), same remark. -/
def WeakHandle.copy (w : WeakHandle) (cb : ControlBlock) :
    WeakHandle × ControlBlock :=
  (⟨w.m_ptr, w.m_ctrl⟩, if w.m_ctrl then cb.add_weak_reference else cb)

/-- C5 (against the intended resolution of the miswritten call):
constructing a weak handle from a shared handle with a non-null control
pointer increments the weak count by one and changes nothing else;
constructing from the empty shared handle yields the empty weak handle
and an untouched block; copy-construction of a non-empty weak handle also
increments the weak count by one. -/
theorem weak_ptr_construction_counts (s : SharedHandle) (w : WeakHandle)
    (cb : ControlBlock) :
    (s.m_ctrl = true →
        (WeakHandle.fromShared s cb).1 = ⟨s.m_ptr, true⟩
        ∧ (WeakHandle.fromShared s cb).2.m_weak_count = cb.m_weak_count + 1
        ∧ (WeakHandle.fromShared s cb).2.m_use_count = cb.m_use_count
        ∧ (WeakHandle.fromShared s cb).2.disposeCount = cb.disposeCount
        ∧ (WeakHandle.fromShared s cb).2.destroyCount = cb.destroyCount)
    ∧ (s = SharedHandle.empty →
        (WeakHandle.fromShared s cb).1 = ⟨none, false⟩
        ∧ (WeakHandle.fromShared s cb).2 = cb)
    ∧ (w.m_ctrl = true →
        (WeakHandle.copy w cb).2.m_weak_count = cb.m_weak_count + 1) := by
  refine ⟨fun h => ?_, fun h => ?_, fun h => ?_⟩ <;>
    simp [WeakHandle.fromShared, WeakHandle.copy, h, SharedHandle.empty,
      ControlBlock.add_weak_reference]

/-- Witness for C5 at a live shared handle, the empty shared handle, and a
live weak handle over a fresh block. -/
theorem weak_ptr_construction_counts_witness :
    ((WeakHandle.fromShared ⟨some 5, true⟩ ControlBlock.init).1
        = ⟨some 5, true⟩
      ∧ (WeakHandle.fromShared ⟨some 5, true⟩
          ControlBlock.init).2.m_weak_count = 1)
    ∧ (WeakHandle.fromShared SharedHandle.empty ControlBlock.init).2
        = ControlBlock.init
    ∧ (WeakHandle.copy ⟨some 5, true⟩ ControlBlock.init).2.m_weak_count
        = 1 :=
  have h := weak_ptr_construction_counts ⟨some 5, true⟩ ⟨some 5, true⟩
    ControlBlock.init
  have he := weak_ptr_construction_counts SharedHandle.empty
    ⟨some 5, true⟩ ControlBlock.init
  ⟨⟨(h.1 rfl).1, (h.1 rfl).2.1⟩, (he.2.1 rfl).2, h.2.2 rfl⟩

/-! Section: construction forms and casts (C6-C9). -/

/-- Cleanup actions observable on the adopting constructor's failure
path. -/
inductive CleanupEvent
  | deleterInvoked (p : Option Nat)
deriving Repr, DecidableEq

/-- Constructor `shared_ptr(Y* ptr)` (shared_ptr.hpp lines 138-147), with the outcome
of `new detail::ptr_control_block<Y>(ptr)` made explicit in `allocOk`.
On success the fresh block (strong 1, weak 0) is installed together with
the adopted pointer — note the block is allocated whether or not `ptr` is
null.  On failure the catch clause runs `delete ptr` (the adopted
pointer's deleter, `std::default_delete<Y>`) and rethrows; the error
value lists the cleanup performed before the exception propagates. -/
def SharedHandle.adopt (allocOk : Bool) (p : Option Nat) :
    Except (List CleanupEvent) (SharedHandle × ControlBlock) :=
  if allocOk then Except.ok (⟨p, true⟩, ControlBlock.init)
  else Except.error [CleanupEvent.deleterInvoked p]

/-- Factory `make_shared` (shared_ptr.hpp lines 232-245): allocates an inplace
control block (strong 1, weak 0) and points the handle at `cb->get()`,
the address of the block-owned storage, always non-null; `addr` stands
for that address. -/
def make_shared (addr : Nat) : SharedHandle × ControlBlock :=
  (⟨some addr, true⟩, ControlBlock.init)

/-- Cast `dynamic_pointer_cast<T>` (shared_ptr.hpp lines 248-258); `castRes`
is the value of `dynamic_cast<T*>(other.get())` (`none` when the runtime
check fails; the C++ semantics give `none` whenever `other.get()` is
null). -/
def dynamic_pointer_cast (castRes : Option Nat) (other : SharedHandle)
    (cb : ControlBlock) : SharedHandle × ControlBlock :=
  match castRes with
  | some p =>
      (⟨some p, other.m_ctrl⟩, if other.m_ctrl then cb.add_reference else cb)
  | none => (SharedHandle.empty, cb)

/-- Cast `static_pointer_cast<T>` (shared_ptr.hpp lines 261-269); `castFn` is
the action of `static_cast<T*>` on the payload pointer (null maps to
null). -/
def static_pointer_cast (castFn : Option Nat → Option Nat)
    (other : SharedHandle) (cb : ControlBlock) :
    SharedHandle × ControlBlock :=
  (⟨castFn other.m_ptr, other.m_ctrl⟩,
   if other.m_ctrl then cb.add_reference else cb)

/-- The spec's emptiness invariant on a shared handle: the control-block
reference is null iff the payload pointer is null (iff the handle is
empty). -/
def EmptyInv (s : SharedHandle) : Prop :=
  s.m_ctrl = false ↔ s.m_ptr = none

/-- C6 counterexample: the adopting constructor applied to a null typed
pointer succeeds, allocating a control block anyway, and yields a handle
with a null payload pointer but a non-null control-block reference. -/
theorem shared_ptr_null_adopt_cex :
    SharedHandle.adopt true none
      = Except.ok (⟨none, true⟩, ControlBlock.init)
    ∧ ¬ EmptyInv ⟨none, true⟩ :=
  ⟨rfl, by simp [EmptyInv]⟩

/-- C6 amended: the emptiness invariant holds for the empty and null
constructors, for adopting a non-null raw pointer, for the factory, and
is preserved by copy, move (on both resulting handles), the checked
dynamic cast, and the static cast — every public construction form except
adoption of a null typed pointer. -/
theorem shared_ptr_empty_invariant_amended :
    EmptyInv SharedHandle.empty
    ∧ (∀ p : Nat, SharedHandle.adopt true (some p)
          = Except.ok (⟨some p, true⟩, ControlBlock.init)
        ∧ EmptyInv ⟨some p, true⟩)
    ∧ (∀ addr : Nat, EmptyInv (make_shared addr).1)
    ∧ (∀ s cb, EmptyInv s → EmptyInv (s.copy cb).1)
    ∧ (∀ s, EmptyInv s → EmptyInv (s.move).1 ∧ EmptyInv (s.move).2)
    ∧ (∀ castRes s cb, EmptyInv s → (castRes ≠ none → s.m_ptr ≠ none) →
        EmptyInv (dynamic_pointer_cast castRes s cb).1)
    ∧ (∀ castFn s cb, (∀ q, castFn q = none ↔ q = none) → EmptyInv s →
        EmptyInv (static_pointer_cast castFn s cb).1) := by
  refine ⟨?_, fun p => ⟨rfl, ?_⟩, fun addr => ?_, fun s cb hs => ?_,
    fun s hs => ⟨?_, ?_⟩, fun castRes s cb hs hc => ?_,
    fun castFn s cb hf hs => ?_⟩
  · simp [EmptyInv, SharedHandle.empty]
  · simp [EmptyInv]
  · simp [EmptyInv, make_shared]
  · simpa [EmptyInv, SharedHandle.copy] using hs
  · simpa [EmptyInv, SharedHandle.move] using hs
  · simp [EmptyInv, SharedHandle.move, SharedHandle.empty]
  · cases castRes with
    | none => simp [dynamic_pointer_cast, EmptyInv, SharedHandle.empty]
    | some p =>
        have hptr : ¬ s.m_ptr = none := hc (by simp)
        have hctrl : s.m_ctrl = true := by
          cases hcc : s.m_ctrl
          · exact absurd (hs.1 hcc) hptr
          · rfl
        simp [dynamic_pointer_cast, EmptyInv, hctrl]
  · have hp := hf s.m_ptr
    simp only [static_pointer_cast, EmptyInv] at *
    rw [hp]
    exact hs

/-- Witness for C6's amended theorem: checks the copy-, move-, cast- and
adoption clauses at concrete handles. -/
theorem shared_ptr_empty_invariant_amended_witness :
    EmptyInv (SharedHandle.copy ⟨some 2, true⟩ ControlBlock.init).1
    ∧ EmptyInv (dynamic_pointer_cast none ⟨some 2, true⟩
        ControlBlock.init).1
    ∧ EmptyInv (static_pointer_cast id ⟨some 2, true⟩
        ControlBlock.init).1 :=
  ⟨(shared_ptr_empty_invariant_amended.2.2.2.1 ⟨some 2, true⟩
      ControlBlock.init (by simp [EmptyInv])),
   (shared_ptr_empty_invariant_amended.2.2.2.2.2.1 none ⟨some 2, true⟩
      ControlBlock.init (by simp [EmptyInv]) (by simp)),
   (shared_ptr_empty_invariant_amended.2.2.2.2.2.2 id ⟨some 2, true⟩
      ControlBlock.init (by simp) (by simp [EmptyInv]))⟩

/-- C7: when control-block allocation fails in the adopting constructor,
the deleter has been invoked on the adopted pointer by the time the
failure propagates (and on success the pointer is adopted into a fresh
block with strong count 1). -/
theorem adopt_no_leak_on_alloc_failure (p : Option Nat) :
    SharedHandle.adopt false p
      = Except.error [CleanupEvent.deleterInvoked p]
    ∧ SharedHandle.adopt true p
      = Except.ok (⟨p, true⟩, ControlBlock.init) :=
  ⟨rfl, rfl⟩

/-- C8: a failed runtime check in `dynamic_pointer_cast` yields the empty
handle (null payload pointer and null control reference) and leaves the
block — hence the source's `use_count()` — untouched; a successful check
on a handle with a non-null control reference yields a handle to the cast
pointer sharing that block, with the strong count incremented by one. -/
theorem dynamic_pointer_cast_spec (castRes : Option Nat)
    (other : SharedHandle) (cb : ControlBlock) :
    (castRes = none →
        (dynamic_pointer_cast castRes other cb).1 = SharedHandle.empty
        ∧ (dynamic_pointer_cast castRes other cb).2 = cb
        ∧ other.use_count (dynamic_pointer_cast castRes other cb).2
            = other.use_count cb)
    ∧ (∀ p, castRes = some p → other.m_ctrl = true →
        (dynamic_pointer_cast castRes other cb).1.m_ptr = some p
        ∧ (dynamic_pointer_cast castRes other cb).1.m_ctrl = true
        ∧ (dynamic_pointer_cast castRes other cb).2.m_use_count
            = cb.m_use_count + 1
        ∧ (dynamic_pointer_cast castRes other cb).2.m_weak_count
            = cb.m_weak_count
        ∧ (dynamic_pointer_cast castRes other cb).2.disposeCount
            = cb.disposeCount) := by
  constructor
  · intro h
    simp [dynamic_pointer_cast, h]
  · intro p hp hctrl
    simp [dynamic_pointer_cast, hp, hctrl, ControlBlock.add_reference]

/-- Witness for C8: the failing cast on a live handle and the succeeding
cast on the same handle. -/
theorem dynamic_pointer_cast_spec_witness :
    ((dynamic_pointer_cast none ⟨some 3, true⟩ ControlBlock.init).1
        = SharedHandle.empty
      ∧ (dynamic_pointer_cast none ⟨some 3, true⟩ ControlBlock.init).2
        = ControlBlock.init)
    ∧ (dynamic_pointer_cast (some 9) ⟨some 3, true⟩
        ControlBlock.init).2.m_use_count = 2 :=
  have h := dynamic_pointer_cast_spec none ⟨some 3, true⟩ ControlBlock.init
  have h2 := dynamic_pointer_cast_spec (some 9) ⟨some 3, true⟩
    ControlBlock.init
  ⟨⟨(h.1 rfl).1, (h.1 rfl).2.1⟩, (h2.2 9 rfl rfl).2.2.1⟩

/-- C9: on a non-empty shared handle, statically casting up with `up` and
back down with `down` (where `down` undoes `up` on this pointer, the C++
`static_cast` round-trip guarantee) yields a handle with the original
payload address that still references the original control block. -/
theorem static_pointer_cast_roundtrip (up down : Option Nat → Option Nat)
    (other : SharedHandle) (cb : ControlBlock)
    (_hne : other.m_ptr ≠ none) (hctrl : other.m_ctrl = true)
    (hround : down (up other.m_ptr) = other.m_ptr) :
    (static_pointer_cast down (static_pointer_cast up other cb).1
        (static_pointer_cast up other cb).2).1.m_ptr = other.m_ptr
    ∧ (static_pointer_cast down (static_pointer_cast up other cb).1
        (static_pointer_cast up other cb).2).1.m_ctrl = true := by
  simp [static_pointer_cast, hround, hctrl]

/-- Witness for C9 with an address-shifting upcast and its inverse. -/
theorem static_pointer_cast_roundtrip_witness :
    (static_pointer_cast (fun q => q.map (fun n => n - 1))
        (static_pointer_cast (fun q => q.map (fun n => n + 1))
          ⟨some 4, true⟩ ControlBlock.init).1
        (static_pointer_cast (fun q => q.map (fun n => n + 1))
          ⟨some 4, true⟩ ControlBlock.init).2).1.m_ptr = some 4 :=
  (static_pointer_cast_roundtrip (fun q => q.map (fun n => n + 1))
    (fun q => q.map (fun n => n - 1)) ⟨some 4, true⟩ ControlBlock.init
    (by simp) rfl (by simp)).1

/-- Assignment `operator=(const shared_ptr&)` (shared_ptr.hpp lines 177-180) applied
to the handle itself: `shared_ptr(other).swap(*this)` — the copy
constructor takes the extra reference, `swap` (lines 196-199) exchanges
the (equal) pairs, and the temporary's destructor (lines 173-175)
releases. -/
def SharedHandle.assignSelf (a : SharedHandle) (cb : ControlBlock) :
    SharedHandle × ControlBlock :=
  let copied := a.copy cb
  let tmp := copied.1
  let cb1 := copied.2
  let a1 := tmp
  let tmp1 := a
  (a1, tmp1.drop cb1)

/-- C10: self-assignment of a shared handle whose strong count is at
least 1 whenever it holds a control reference (true of every live handle)
leaves the handle and the block — counts, dispose and destroy
instrumentation included — exactly unchanged. -/
theorem shared_ptr_self_assignment (a : SharedHandle) (cb : ControlBlock)
    (h : a.m_ctrl = true → 1 ≤ cb.m_use_count) :
    a.assignSelf cb = (a, cb) := by
  obtain ⟨ap, ac⟩ := a
  obtain ⟨u, w, d1, d2⟩ := cb
  cases ac
  · simp [SharedHandle.assignSelf, SharedHandle.copy, SharedHandle.drop]
  · have h1 : 1 ≤ u := h rfl
    have hcond : ¬ (u + 1 - 1 = 0) := by omega
    have h0 : ¬ (u = 0) := by omega
    simp [SharedHandle.assignSelf, SharedHandle.copy, SharedHandle.drop,
      ControlBlock.add_reference, ControlBlock.release, hcond, h0]

/-- Witness for C10 at a live handle with strong count 2. -/
theorem shared_ptr_self_assignment_witness :
    SharedHandle.assignSelf ⟨some 3, true⟩
      { m_use_count := 2, m_weak_count := 0, disposeCount := 0,
        destroyCount := 0 }
    = (⟨some 3, true⟩,
       { m_use_count := 2, m_weak_count := 0, disposeCount := 0,
         destroyCount := 0 }) :=
  shared_ptr_self_assignment ⟨some 3, true⟩
    { m_use_count := 2, m_weak_count := 0, disposeCount := 0,
      destroyCount := 0 } (fun _ => by decide)

end SmartPtrKit
